import Mathlib

/-!
Shallow embedding of `src/src/main.py` of the fks_futures service skeleton.

The module-level Python script is modelled as a function `startup` from a
startup configuration (outcome of the optional health-router import, outcome
of the Prometheus metrics setup) to either a built application (route table,
CORS policy, logs) or a propagated exception.  Request dispatch is modelled
by `handle`, and the relevant parts of the `prometheus_client` library
(`CollectorRegistry`, a labelled `Gauge`, `generate_latest`) are embedded as
pure data and a rendering function.
-/

namespace FksFutures

/-- The JSON object returned by the `root` handler (main.py lines 83-95). -/
structure RootPayload where
  service : String
  version : String
  status : String
  endpoints : List (String × String)
  features : List String
deriving DecidableEq

/-- The literal payload built by `root` in main.py lines 83-95. -/
def rootPayload : RootPayload :=
  { service := "fks_futures"
    version := "1.0.0"
    status := "running"
    endpoints := [("health", "/health")]
    features :=
      [ "Futures market analysis"
      , "Signal generation"
      , "Integration with fks-app, fks-execution, fks-data" ] }

/-- One sample of a metric family: label values paired with the sample value.
The only value ever set in this service is the integer 1 (main.py line 56),
so values are embedded as integers. -/
structure Sample where
  labels : List (String × String)
  value : Int
deriving DecidableEq

/-- One metric family as collected by a `prometheus_client` registry:
name, help text, metric type, declared label names, and current samples. -/
structure MetricFamily where
  name : String
  help : String
  metricType : String
  labelNames : List String
  samples : List Sample
deriving DecidableEq

/-- A `prometheus_client.CollectorRegistry`: the list of registered
metric families. -/
structure CollectorRegistry where
  families : List MetricFamily
deriving DecidableEq

/-- `CollectorRegistry()` — a freshly constructed registry is empty: it has
no default process or platform collectors. -/
def CollectorRegistry.new : CollectorRegistry := ⟨[]⟩

/-- Rendering of a float sample value in the exposition text format: the
library prints integral floats with a trailing `.0` (e.g. `1` renders
as `1.0`). -/
def renderValue (v : Int) : String := toString v ++ ".0"

/-- Rendering of the label block of one sample: `\x7bk="v",...\x7d`, empty
when there are no labels. -/
def renderLabels (labels : List (String × String)) : String :=
  if labels.isEmpty then ""
  else
    "\x7b" ++ String.intercalate ","
      (labels.map (fun kv => kv.1 ++ "=\"" ++ kv.2 ++ "\"")) ++ "\x7d"

/-- One sample line of the exposition format: `name\x7blabels\x7d value`. -/
def sampleLine (familyName : String) (s : Sample) : String :=
  familyName ++ renderLabels s.labels ++ " " ++ renderValue s.value

/-- One family's block in the exposition format: a `# HELP` line, a `# TYPE`
line, then one line per sample, each line terminated by a newline. -/
def renderFamily (f : MetricFamily) : String :=
  "# HELP " ++ f.name ++ " " ++ f.help ++ "\n" ++
  "# TYPE " ++ f.name ++ " " ++ f.metricType ++ "\n" ++
  String.join (f.samples.map (fun s => sampleLine f.name s ++ "\n"))

/-- `prometheus_client.generate_latest`: the full exposition text of every
family registered in the given registry, in registration order.  A pure
function of the registry state. -/
def generate_latest (r : CollectorRegistry) : String :=
  String.join (r.families.map renderFamily)

/-- The `fks_build_info` gauge as constructed in main.py lines 50-55:
registered with label names `service` and `version` and no samples yet. -/
def buildInfoGauge : MetricFamily :=
  { name := "fks_build_info"
    help := "Build information for the service"
    metricType := "gauge"
    labelNames := ["service", "version"]
    samples := [] }

/-- The effect of `_build_info.labels(service="fks_futures",
version="1.0.0").set(1)` (main.py line 56) on the gauge family. -/
def setBuildInfoSample (f : MetricFamily) : MetricFamily :=
  { f with samples := f.samples ++ [⟨[("service", "fks_futures"), ("version", "1.0.0")], 1⟩] }

/-- The module-level `_metrics_registry` after the metrics setup block
succeeded: a fresh registry holding exactly the build-info gauge with its
one sample (main.py lines 49-56). -/
def _metrics_registry : CollectorRegistry :=
  { families := CollectorRegistry.new.families ++ [setBuildInfoSample buildInfoGauge] }

/-- Split a character list into lines at newline characters, carrying the
(reversed) current line. -/
def linesAux : List Char → List Char → List String
  | [], acc => [String.mk acc.reverse]
  | '\n' :: cs, acc => String.mk acc.reverse :: linesAux cs []
  | c :: cs, acc => linesAux cs (c :: acc)

/-- The lines of a text, split at newline characters; a trailing newline
yields a final empty line. -/
def textLines (s : String) : List String := linesAux s.data []

/-- A response body: the root JSON object, plain text, or the framework's
default not-found JSON body. -/
inductive Body where
  | json (p : RootPayload)
  | text (s : String)
  | detailNotFound
deriving DecidableEq

/-- An HTTP response: status code, media type, body. -/
structure Response where
  status : Nat
  mediaType : String
  body : Body
deriving DecidableEq

/-- A route handler.  `root` and `metricsEndpoint` are the two handlers
defined in main.py (the latter closing over the registry it renders);
`external` stands for a handler owned by an external route module. -/
inductive Handler where
  | root
  | metricsEndpoint (registry : CollectorRegistry)
  | external (name : String)
deriving DecidableEq

/-- One bound route: path, handler, whether it appears in the generated API
schema, and its tags. -/
structure Route where
  path : String
  handler : Handler
  includeInSchema : Bool
  tags : List String
deriving DecidableEq

/-- The CORS middleware configuration (main.py lines 36-42). -/
structure CORSConfig where
  allowOrigins : List String
  allowCredentials : Bool
  allowMethods : List String
  allowHeaders : List String
deriving DecidableEq

/-- The FastAPI application: title, version, CORS policy, route table. -/
structure App where
  title : String
  version : String
  cors : CORSConfig
  routes : List Route
deriving DecidableEq

/-- Modelled from the spec: the external health-check module
`api.routes.health` is not present under src; per the spec it exposes a
mountable route set under `/health` whose handler contract is owned by that
collaborator.  It is embedded as a one-route router with an external
handler; no theorem relies on the external handler's response. -/
def healthModuleRouter : List Route :=
  [{ path := "/health", handler := .external "health", includeInSchema := true, tags := [] }]

/-- Outcome of `from api.routes.health import router` (main.py lines 23-27):
the import succeeds, raises `ImportError` (module missing or symbol
missing), or raises an exception of some other class while the health
module's top-level code runs. -/
inductive HealthImport where
  | ok
  | importError
  | otherException (exnClass : String)
deriving DecidableEq

/-- A startup configuration: the outcome of the health import and, for the
metrics setup block (main.py lines 45-66), `none` when the block succeeds or
`some e` when it raises an exception rendering as `e`. -/
structure StartupConfig where
  healthImport : HealthImport
  metricsError : Option String
deriving DecidableEq

/-- The state after the module-level script ran to completion: the built
app, the module-level `health_router` variable, and the warning and info
log messages emitted (startup-hook logs included). -/
structure StartupResult where
  app : App
  health_router : Option (List Route)
  warnings : List String
  infos : List String
deriving DecidableEq

/-- `app.include_router(router, tags=["health"])`: append the router's
routes to the app, extending each route's tags. -/
def includeRouter (app : App) (router : List Route) (tags : List String) : App :=
  { app with routes := app.routes ++ router.map (fun r => { r with tags := r.tags ++ tags }) }

/-- Bind one route at the end of the app's route table. -/
def addRoute (app : App) (r : Route) : App :=
  { app with routes := app.routes ++ [r] }

/-- The app as constructed in main.py lines 29-42, before any route of this
module is bound. -/
def initialApp : App :=
  { title := "FKS Futures Trading Service"
    version := "1.0.0"
    cors :=
      { allowOrigins := ["*"]
        allowCredentials := true
        allowMethods := ["*"]
        allowHeaders := ["*"] }
    routes := [] }

/-- The rest of the module-level script after the health import was resolved
to a `health_router` value and warnings `w1`: the metrics setup block
(try/except over any exception), the conditional `include_router`, the
startup hook, and the `root` route (main.py lines 29-95). -/
def startupTail (hr : Option (List Route)) (w1 : List String)
    (metricsError : Option String) : StartupResult :=
  let metricsStep :=
    match metricsError with
    | none =>
        (addRoute initialApp
          { path := "/metrics"
            handler := .metricsEndpoint _metrics_registry
            includeInSchema := false
            tags := [] },
         ([] : List String),
         ["✅ Prometheus metrics with fks_build_info registered"])
    | some e =>
        (initialApp, ["Could not set up Prometheus metrics: " ++ e], ([] : List String))
  let app1 := metricsStep.1
  let w2 := metricsStep.2.1
  let i1 := metricsStep.2.2
  let app2 :=
    match hr with
    | some router => includeRouter app1 router ["health"]
    | none => app1
  let app3 := addRoute app2
    { path := "/", handler := .root, includeInSchema := true, tags := [] }
  { app := app3
    health_router := hr
    warnings := w1 ++ w2
    infos := i1 ++
      [ "Starting FKS Futures Trading Service..."
      , "FKS Futures Trading Service started successfully" ] }

/-- The whole module-level script of main.py as a function of the startup
configuration.  The health import is wrapped in `try/except ImportError`
only (main.py lines 23-27): an `ImportError` is caught, logged and replaced
by `None`, while an exception of any other class propagates and the module
fails to load (`Except.error`). -/
def startup (cfg : StartupConfig) : Except String StartupResult :=
  match cfg.healthImport with
  | .ok => .ok (startupTail (some healthModuleRouter) [] cfg.metricsError)
  | .importError =>
      .ok (startupTail none ["Could not import health router"] cfg.metricsError)
  | .otherException e => .error e

/-- The body of `metrics_endpoint` (main.py lines 59-63), with the registry
state passed explicitly: it renders the registry and returns the registry
unchanged. -/
def metrics_endpoint (reg : CollectorRegistry) : Response × CollectorRegistry :=
  ({ status := 200
     mediaType := "text/plain; version=0.0.4; charset=utf-8"
     body := .text (generate_latest reg) }, reg)

/-- Run one handler to a response.  The external handler's behaviour is
owned by the external collaborator (modelled from the spec); the theorems
below never depend on its response. -/
def runHandler : Handler → Response
  | .root => { status := 200, mediaType := "application/json", body := .json rootPayload }
  | .metricsEndpoint reg => (metrics_endpoint reg).1
  | .external n => { status := 200, mediaType := "application/json", body := .text n }

/-- Request dispatch: the first route whose path matches handles the
request; otherwise the framework returns its default 404 not-found
response. -/
def handle (app : App) (path : String) : Response :=
  match app.routes.find? (fun r => r.path == path) with
  | some r => runHandler r.handler
  | none => { status := 404, mediaType := "application/json", body := .detailNotFound }

/-- Accumulate the value of a decimal digit string; `none` on the first
non-digit character. -/
def decNatAux : List Char → Nat → Option Nat
  | [], acc => some acc
  | c :: cs, acc =>
    if c.isDigit then decNatAux cs (10 * acc + (c.toNat - Char.toNat '0')) else none

/-- Python's `int()` restricted to plain decimal literals with an optional
leading minus sign; `none` stands for a raised `ValueError`. -/
def pythonInt (s : String) : Option Int :=
  match s.data with
  | [] => none
  | '-' :: cs => if cs.isEmpty then none else (decNatAux cs 0).map (fun n => -(n : Int))
  | cs => (decNatAux cs 0).map (fun n => (n : Int))

/-- `int(os.getenv("SERVICE_PORT", "8015"))` (main.py line 100):
the environment variable's value, or the literal `"8015"` when unset,
converted by `int()`. -/
def getPort (env : Option String) : Option Int :=
  pythonInt (env.getD "8015")

/-- The single bind address `uvicorn.run(app, host, port)` listens on. -/
structure UvicornRun where
  host : String
  port : Int
deriving DecidableEq

/-- The `__main__` block (main.py lines 98-101): resolve the port from the
`SERVICE_PORT` environment variable and bind the server to all interfaces
on that single port. -/
def mainRun (env : Option String) : Option UvicornRun :=
  (getPort env).map (fun p => { host := "0.0.0.0", port := p })

/-- The metrics-setup warning differs from the health-import warning,
whatever the exception text appended to it. -/
theorem metricsWarnNe (e : String) :
    ("Could not set up Prometheus metrics: " ++ e) ≠ "Could not import health router" := by
  intro hEq
  have hLen := congrArg String.length hEq
  rw [String.length_append] at hLen
  have h1 : String.length "Could not set up Prometheus metrics: " = 37 := rfl
  have h2 : String.length "Could not import health router" = 30 := rfl
  omega

/-- Claim C1: for every startup configuration that yields a running app
(each optional component present or absent), a `GET /` request returns
status 200 with a JSON body whose service field equals "fks_futures" and
whose version field equals "1.0.0". -/
theorem root_always_available (cfg : StartupConfig) (res : StartupResult)
    (h : startup cfg = .ok res) :
    (handle res.app "/").status = 200 ∧
    ∃ p : RootPayload, (handle res.app "/").body = Body.json p ∧
      p.service = "fks_futures" ∧ p.version = "1.0.0" := by
  obtain ⟨hi, me⟩ := cfg
  cases hi with
  | ok =>
      injection h with h
      subst h
      cases me with
      | none => exact ⟨rfl, rootPayload, rfl, rfl, rfl⟩
      | some e => exact ⟨rfl, rootPayload, rfl, rfl, rfl⟩
  | importError =>
      injection h with h
      subst h
      cases me with
      | none => exact ⟨rfl, rootPayload, rfl, rfl, rfl⟩
      | some e => exact ⟨rfl, rootPayload, rfl, rfl, rfl⟩
  | otherException e => exact Except.noConfusion h

/-- Witness for `root_always_available` at the configuration where both the
health import and the metrics setup failed. -/
theorem root_always_available_witness :
    (handle (startupTail none ["Could not import health router"] (some "boom")).app "/").status
        = 200 ∧
    ∃ p : RootPayload,
      (handle (startupTail none ["Could not import health router"] (some "boom")).app "/").body
          = Body.json p ∧
      p.service = "fks_futures" ∧ p.version = "1.0.0" :=
  root_always_available ⟨HealthImport.importError, some "boom"⟩
    (startupTail none ["Could not import health router"] (some "boom")) rfl

/-- Claim C2, counterexample: an exception of a class other than
`ImportError` raised while acquiring the health module is not caught by the
`except ImportError` clause (main.py lines 23-27) and propagates out of the
startup sequence, so the process does not reach Ready. -/
theorem health_import_other_exception_propagates :
    startup { healthImport := HealthImport.otherException "RuntimeError"
              metricsError := none } = Except.error "RuntimeError" := rfl

/-- Claim C2 as amended: for the failure modes that raise `ImportError`
(missing module or missing symbol), the startup sequence catches the
failure, logs exactly one warning naming the health router, marks the
component absent and still reaches Ready; an exception of any other class
propagates out of startup. -/
theorem health_import_error_caught (me : Option String) :
    ∃ res, startup { healthImport := HealthImport.importError, metricsError := me }
        = .ok res ∧
      res.health_router = none ∧
      List.count "Could not import health router" res.warnings = 1 ∧
      "FKS Futures Trading Service started successfully" ∈ res.infos := by
  refine ⟨startupTail none ["Could not import health router"] me, rfl, rfl, ?_, ?_⟩
  · cases me with
    | none => decide
    | some e => simp [startupTail, List.count_cons, metricsWarnNe e]
  · cases me with
    | none => decide
    | some e => simp [startupTail]

/-- Witness for `health_import_error_caught` with the metrics setup
succeeding. -/
theorem health_import_error_caught_witness :
    ∃ res, startup { healthImport := HealthImport.importError, metricsError := none }
        = .ok res ∧
      res.health_router = none ∧
      List.count "Could not import health router" res.warnings = 1 ∧
      "FKS Futures Trading Service started successfully" ∈ res.infos :=
  health_import_error_caught none

/-- Claim C3: the app never binds a route for an absent optional component:
a health-tagged route exists if and only if the health import produced a
handler, and the health-tagged routes are exactly the health router's
routes as included by `include_router` — no other code path binds them. -/
theorem absent_component_binds_no_route (cfg : StartupConfig) (res : StartupResult)
    (h : startup cfg = .ok res) :
    (res.app.routes.any (fun r => r.tags.contains "health")
        = res.health_router.isSome) ∧
    res.app.routes.filter (fun r => r.tags.contains "health")
        = (res.health_router.getD []).map
            (fun r => { r with tags := r.tags ++ ["health"] }) := by
  obtain ⟨hi, me⟩ := cfg
  cases hi with
  | ok =>
      injection h with h
      subst h
      cases me with
      | none => exact ⟨rfl, rfl⟩
      | some e => exact ⟨rfl, rfl⟩
  | importError =>
      injection h with h
      subst h
      cases me with
      | none => exact ⟨rfl, rfl⟩
      | some e => exact ⟨rfl, rfl⟩
  | otherException e => exact Except.noConfusion h

/-- Witness for `absent_component_binds_no_route` at the fully successful
configuration. -/
theorem absent_component_binds_no_route_witness :
    ((startupTail (some healthModuleRouter) [] none).app.routes.any
        (fun r => r.tags.contains "health")
      = (startupTail (some healthModuleRouter) [] none).health_router.isSome) ∧
    (startupTail (some healthModuleRouter) [] none).app.routes.filter
        (fun r => r.tags.contains "health")
      = ((startupTail (some healthModuleRouter) [] none).health_router.getD []).map
          (fun r => { r with tags := r.tags ++ ["health"] }) :=
  absent_component_binds_no_route ⟨HealthImport.ok, none⟩
    (startupTail (some healthModuleRouter) [] none) rfl

/-- Claim C4: if the metrics setup block raises, no `/metrics` route is
bound, the condition is logged at warning level, startup continues, and a
request to `/metrics` observes the framework's not-found response rather
than an error status. -/
theorem metrics_setup_failure_degrades (hi : HealthImport) (e : String)
    (res : StartupResult)
    (h : startup { healthImport := hi, metricsError := some e } = .ok res) :
    res.app.routes.filter (fun r => r.path == "/metrics") = [] ∧
    ("Could not set up Prometheus metrics: " ++ e) ∈ res.warnings ∧
    (handle res.app "/metrics").status = 404 ∧
    "FKS Futures Trading Service started successfully" ∈ res.infos := by
  cases hi with
  | ok =>
      injection h with h
      subst h
      refine ⟨rfl, List.mem_singleton.mpr rfl, rfl, ?_⟩
      simp [startupTail]
  | importError =>
      injection h with h
      subst h
      refine ⟨rfl, ?_, rfl, ?_⟩
      · simp [startupTail]
      · simp [startupTail]
  | otherException e2 => exact Except.noConfusion h

/-- Witness for `metrics_setup_failure_degrades` with the health import
succeeding. -/
theorem metrics_setup_failure_degrades_witness :
    (startupTail (some healthModuleRouter) [] (some "no prometheus_client")).app.routes.filter
        (fun r => r.path == "/metrics") = [] ∧
    ("Could not set up Prometheus metrics: " ++ "no prometheus_client") ∈
      (startupTail (some healthModuleRouter) [] (some "no prometheus_client")).warnings ∧
    (handle (startupTail (some healthModuleRouter) [] (some "no prometheus_client")).app
        "/metrics").status = 404 ∧
    "FKS Futures Trading Service started successfully" ∈
      (startupTail (some healthModuleRouter) [] (some "no prometheus_client")).infos :=
  metrics_setup_failure_degrades HealthImport.ok "no prometheus_client"
    (startupTail (some healthModuleRouter) [] (some "no prometheus_client")) rfl

/-- Claim C5: after the build-info gauge is registered with labels
service="fks_futures", version="1.0.0" and value 1, the exposition text of
the registry is a `# HELP` line, a `# TYPE` line, then the sample line,
which extends the claimed pattern
`fks_build_info\x7bservice="fks_futures",version="1.0.0"\x7d 1` by the
library's `.0` float rendering. -/
theorem metrics_exposition_content :
    textLines (generate_latest _metrics_registry) =
      [ "# HELP fks_build_info Build information for the service"
      , "# TYPE fks_build_info gauge"
      , "fks_build_info\x7bservice=\"fks_futures\",version=\"1.0.0\"\x7d 1.0"
      , "" ] ∧
    "fks_build_info\x7bservice=\"fks_futures\",version=\"1.0.0\"\x7d 1.0"
      = "fks_build_info\x7bservice=\"fks_futures\",version=\"1.0.0\"\x7d 1" ++ ".0" := by
  decide

/-- Claim C6: rendering the metrics registry is a pure read: the handler
returns the registry unchanged, and two successive calls on the same
registry state return identical output. -/
theorem metrics_render_pure (reg : CollectorRegistry) :
    (metrics_endpoint reg).2 = reg ∧
    (metrics_endpoint (metrics_endpoint reg).2).1 = (metrics_endpoint reg).1 :=
  ⟨rfl, rfl⟩

/-- Witness for `metrics_render_pure` at the service's own registry. -/
theorem metrics_render_pure_witness :
    (metrics_endpoint _metrics_registry).2 = _metrics_registry ∧
    (metrics_endpoint (metrics_endpoint _metrics_registry).2).1
      = (metrics_endpoint _metrics_registry).1 :=
  metrics_render_pure _metrics_registry

/-- Claim C7: the body returned by `GET /` is identical between a run in
which the health component loaded and a run in which it failed to load; in
particular the advertised endpoints map (health: "/health") and features
list are the same constants in both runs. -/
theorem root_body_config_independent (m1 m2 : Option String)
    (r1 r2 : StartupResult)
    (h1 : startup { healthImport := HealthImport.ok, metricsError := m1 } = .ok r1)
    (h2 : startup { healthImport := HealthImport.importError, metricsError := m2 } = .ok r2) :
    handle r1.app "/" = handle r2.app "/" ∧
    (handle r1.app "/").body = Body.json rootPayload ∧
    rootPayload.endpoints = [("health", "/health")] ∧
    rootPayload.features =
      [ "Futures market analysis"
      , "Signal generation"
      , "Integration with fks-app, fks-execution, fks-data" ] := by
  injection h1 with h1
  injection h2 with h2
  subst h1
  subst h2
  cases m1 <;> cases m2 <;> exact ⟨rfl, rfl, rfl, rfl⟩

/-- Witness for `root_body_config_independent` with the metrics setup
succeeding in both runs. -/
theorem root_body_config_independent_witness :
    handle (startupTail (some healthModuleRouter) [] none).app "/"
        = handle (startupTail none ["Could not import health router"] none).app "/" ∧
    (handle (startupTail (some healthModuleRouter) [] none).app "/").body
        = Body.json rootPayload ∧
    rootPayload.endpoints = [("health", "/health")] ∧
    rootPayload.features =
      [ "Futures market analysis"
      , "Signal generation"
      , "Integration with fks-app, fks-execution, fks-data" ] :=
  root_body_config_independent none none
    (startupTail (some healthModuleRouter) [] none)
    (startupTail none ["Could not import health router"] none) rfl rfl

/-- Claim C8: when the metrics subsystem loaded, a `/metrics` route is
bound, excluded from the generated API schema, and a request to it returns
the rendered exposition with content type exactly
`text/plain; version=0.0.4; charset=utf-8`. -/
theorem metrics_route_contract (hi : HealthImport) (res : StartupResult)
    (h : startup { healthImport := hi, metricsError := none } = .ok res) :
    (∃ r ∈ res.app.routes, r.path = "/metrics" ∧ r.includeInSchema = false) ∧
    handle res.app "/metrics" =
      { status := 200
        mediaType := "text/plain; version=0.0.4; charset=utf-8"
        body := Body.text (generate_latest _metrics_registry) } := by
  cases hi with
  | ok =>
      injection h with h
      subst h
      exact ⟨by decide, rfl⟩
  | importError =>
      injection h with h
      subst h
      exact ⟨by decide, rfl⟩
  | otherException e => exact Except.noConfusion h

/-- Witness for `metrics_route_contract` with the health import failing. -/
theorem metrics_route_contract_witness :
    (∃ r ∈ (startupTail none ["Could not import health router"] none).app.routes,
      r.path = "/metrics" ∧ r.includeInSchema = false) ∧
    handle (startupTail none ["Could not import health router"] none).app "/metrics" =
      { status := 200
        mediaType := "text/plain; version=0.0.4; charset=utf-8"
        body := Body.text (generate_latest _metrics_registry) } :=
  metrics_route_contract HealthImport.importError
    (startupTail none ["Could not import health router"] none) rfl

/-- Claim C9: the listen port comes from the SERVICE_PORT environment
variable parsed as an integer, defaulting to 8015 when unset; the server
binds all interfaces on that single port, so setting SERVICE_PORT to 9999
makes it listen on 9999. -/
theorem port_selection :
    mainRun none = some { host := "0.0.0.0", port := 8015 } ∧
    mainRun (some "9999") = some { host := "0.0.0.0", port := 9999 } := by
  decide

/-- Claim C10: the exposition is generated from a dedicated, freshly
created registry holding only the build-info gauge, so the `/metrics` body
consists of exactly one metric family and no other series. -/
theorem dedicated_registry_single_family :
    CollectorRegistry.new.families = [] ∧
    _metrics_registry.families = [setBuildInfoSample buildInfoGauge] ∧
    (setBuildInfoSample buildInfoGauge).name = "fks_build_info" ∧
    generate_latest _metrics_registry = renderFamily (setBuildInfoSample buildInfoGauge) ∧
    (startup { healthImport := HealthImport.ok, metricsError := none }).map
        (fun r => (handle r.app "/metrics").body)
      = .ok (Body.text (renderFamily (setBuildInfoSample buildInfoGauge))) := by
  refine ⟨rfl, rfl, rfl, ?_, ?_⟩ <;> rfl

end FksFutures
